import Mathlib

/-!
Shallow embedding of `src/lambda/lambda_function.py`, a serverless
image-optimization worker: `lambda_handler(event, context)` iterates over
`event['Records']`, parses each SQS message body as an S3 event, filters keys
by the `uploads/` source path, fetches the object, re-encodes it as JPEG at
quality 30, and writes the result under the `optimized/` path, catching all
per-message exceptions.

External effects (S3 calls, PIL codec calls, `print` diagnostics) are modelled
by an explicit environment of fallible collaborator functions plus an effect
trace accumulated per message.  Byte blobs and in-memory images are modelled by
opaque `Nat` identifiers, since the handler never inspects their contents.
-/

/-- Python `str.replace(old, new)` on explicit character lists, with an
explicit fuel argument to keep the recursion structural: every
*non-overlapping* occurrence of `pat` is replaced by `rep`, scanning left to
right.  Fuel at least the length of the list is sufficient (each step consumes
one cons cell of fuel and at least one character of input).  The degenerate
empty-pattern case never arises in this program (the pattern is always
`"uploads/"`) and is modelled as the identity. -/
def replaceAllFuel (pat rep : List Char) : Nat → List Char → List Char
  | _, [] => []
  | 0, s => s
  | fuel + 1, c :: cs =>
    if pat ≠ [] ∧ pat.isPrefixOf (c :: cs) then
      rep ++ replaceAllFuel pat rep fuel (List.drop (pat.length - 1) cs)
    else
      c :: replaceAllFuel pat rep fuel cs

/-- Python `str.replace(old, new)` on lists, replacing all occurrences. -/
def replaceAll (pat rep s : List Char) : List Char :=
  replaceAllFuel pat rep s.length s

/-- Python `s.replace(old, new)`: replaces ALL non-overlapping occurrences of
`old` in `s` by `new`, left to right (the Python method has no count argument
at the call site in the source, so nothing limits it to the first match). -/
def pyReplace (s old new : String) : String :=
  ⟨replaceAll old.data new.data s.data⟩

/-- Python `s.startswith(pre)`. -/
def pyStartsWith (s pre : String) : Bool :=
  pre.data.isPrefixOf s.data

/-- The fixed source path literal `'uploads/'` from the source. -/
def srcPre : String := "uploads/"

/-- The fixed destination path literal `'optimized/'` from the source. -/
def dstPre : String := "optimized/"

/-- Line 37 of the source: `output_key = key.replace('uploads/', 'optimized/')`. -/
def output_key (key : String) : String :=
  pyReplace key srcPre dstPre

/-- One entry of the embedded S3 `Records` list inside a message body.
`none` fields model missing keys in the parsed JSON (a `KeyError` on
`s3_record['s3']['bucket']['name']` or `['s3']['object']['key']`). -/
structure S3Entry where
  bucketName : Option String
  objectKey : Option String
deriving DecidableEq, Repr

/-- The JSON object decoded from a message body.  `recordsField = none` models
a parsed body with no `'Records'` key (a `KeyError` on `message_body['Records']`). -/
structure MessageBody where
  recordsField : Option (List S3Entry)
deriving DecidableEq, Repr

/-- One SQS record of the batch.  `body = none` models a body on which
`json.loads` raises (malformed JSON); `body = some mb` models a body that
decodes to `mb`. -/
structure SQSMessage where
  body : Option MessageBody
deriving DecidableEq, Repr

/-- The top-level Lambda event.  `records = none` models an event dict with no
`'Records'` key, on which `event['Records']` raises an uncaught `KeyError`. -/
structure LambdaEvent where
  records : Option (List SQSMessage)
deriving DecidableEq, Repr

/-- The handler's return dict `{'statusCode': ..., 'body': ...}`. -/
structure Response where
  statusCode : Nat
  body : String
deriving DecidableEq, Repr

/-- The error taxonomy of the per-message pipeline, naming the five failure
sites of the source (all raised as Python exceptions and caught generically). -/
inductive PyError where
  | decodeError
  | shapeError
  | fetchError
  | codecError
  | storeError
deriving DecidableEq, Repr

/-- One successful `s3.put_object` call: bucket, key, body bytes, content type. -/
structure PutCall where
  bucket : String
  key : String
  body : Nat
  contentType : String
deriving DecidableEq, Repr

/-- Observable side effects of the handler, in program order: the `print`
diagnostics and the S3/PIL collaborator calls. -/
inductive Effect where
  | logSkip (key : String)
  | logStart (key bucket : String)
  | getObj (bucket key : String)
  | decodeImg (data : Nat)
  | encodeImg (img : Nat) (format : String) (quality : Nat)
  | putObj (bucket key : String) (body : Nat) (contentType : String)
  | logSuccess (key : String)
  | logFailure (m : SQSMessage) (e : PyError)
deriving DecidableEq, Repr

/-- The external collaborators: `s3.get_object` / `.read()` (fused),
`Image.open`, `image.save(buffer, format=..., quality=...)`, and
`s3.put_object`.  Each may fail, modelling the corresponding Python exception. -/
structure Env where
  getObject : String → String → Except Unit Nat
  imageOpen : Nat → Except Unit Nat
  imageSave : Nat → String → Nat → Except Unit Nat
  putObject : String → String → Nat → String → Except Unit Unit

/-- Lines 13–17 of the source: `json.loads(record['body'])`, then
`message_body['Records'][0]`, then the bucket-name and object-key lookups.
Returns the bucket and key, or the first error raised. -/
def extract (m : SQSMessage) : Except PyError (String × String) :=
  match m.body with
  | none => .error .decodeError
  | some mb =>
    match mb.recordsField with
    | none => .error .shapeError
    | some [] => .error .shapeError
    | some (r :: _) =>
      match r.bucketName with
      | none => .error .shapeError
      | some bucket =>
        match r.objectKey with
        | none => .error .shapeError
        | some key => .ok (bucket, key)

/-- The body of the `try` block for one message (lines 13–40 of the source):
effect trace produced, plus either the error raised, or `some` written
artifact, or `none` for the skip path (`continue`). -/
def processBody (env : Env) (m : SQSMessage) :
    List Effect × Except PyError (Option PutCall) :=
  match extract m with
  | .error e => ([], .error e)
  | .ok (bucket, key) =>
    if pyStartsWith key srcPre = false then
      ([Effect.logSkip key], .ok none)
    else
      let t1 := [Effect.logStart key bucket, Effect.getObj bucket key]
      match env.getObject bucket key with
      | .error _ => (t1, .error .fetchError)
      | .ok data =>
        let t2 := t1 ++ [Effect.decodeImg data]
        match env.imageOpen data with
        | .error _ => (t2, .error .codecError)
        | .ok img =>
          let t3 := t2 ++ [Effect.encodeImg img "JPEG" 30]
          match env.imageSave img "JPEG" 30 with
          | .error _ => (t3, .error .codecError)
          | .ok buf =>
            let okey := output_key key
            let t4 := t3 ++ [Effect.putObj bucket okey buf "image/jpeg"]
            match env.putObject bucket okey buf "image/jpeg" with
            | .error _ => (t4, .error .storeError)
            | .ok _ => (t4 ++ [Effect.logSuccess okey], .ok (some ⟨bucket, okey, buf, "image/jpeg"⟩))

/-- One loop iteration with its `try`/`except` boundary (lines 11–44): on any
error the two failure `print`s run (modelled as one `logFailure` effect
carrying the raw record and the error) and control falls through to the next
message; no error escapes. -/
def processRecord (env : Env) (m : SQSMessage) : List Effect × Option PutCall :=
  match processBody env m with
  | (tr, .ok w) => (tr, w)
  | (tr, .error e) => (tr ++ [Effect.logFailure m e], none)

/-- The artifact successfully written for a message, if any. -/
def written (env : Env) (m : SQSMessage) : Option PutCall :=
  (processRecord env m).2

/-- Whether the per-message `try` block raises for this message. -/
def recordFails (env : Env) (m : SQSMessage) : Bool :=
  match (processBody env m).2 with
  | .error _ => true
  | .ok _ => false

/-- Concatenated effect trace of a whole batch, in batch order. -/
def handlerTrace (env : Env) (msgs : List SQSMessage) : List Effect :=
  (msgs.map fun m => (processRecord env m).1).flatten

/-- `lambda_handler(event, context)` (lines 9–46): `event['Records']` raises an
uncaught `KeyError` when absent (modelled as `.error ()`); otherwise every
record is processed in order and the fixed response dict is returned.  The
result pairs the full effect trace with the return value. -/
def lambda_handler (env : Env) (event : LambdaEvent) :
    Except Unit (List Effect × Response) :=
  match event.records with
  | none => .error ()
  | some msgs => .ok (handlerTrace env msgs, ⟨200, "Batch processed"⟩)

/-- A message whose body holds a single well-formed S3 record. -/
def mkMsg (bucket key : String) : SQSMessage :=
  ⟨some ⟨some [⟨some bucket, some key⟩]⟩⟩

/-- A concrete environment in which every collaborator call fails. -/
def envW : Env where
  getObject := fun _ _ => .error ()
  imageOpen := fun _ => .error ()
  imageSave := fun _ _ _ => .error ()
  putObject := fun _ _ _ _ => .error ()

/-- A concrete environment in which every collaborator call succeeds, with
fixed blob identifiers: fetched data `1`, decoded image `2`, encoded buffer `3`. -/
def envOk : Env where
  getObject := fun _ _ => .ok 1
  imageOpen := fun _ => .ok 2
  imageSave := fun _ _ _ => .ok 3
  putObject := fun _ _ _ _ => .ok ()

/-- A message whose body is malformed JSON (`json.loads` raises). -/
def msgFail : SQSMessage := ⟨none⟩

/-- A concrete two-message batch: a malformed message followed by a valid one. -/
def batchW : List SQSMessage := [msgFail, mkMsg "bkt" "uploads/x.jpg"]

/-- The result of `replaceAllFuel` does not depend on the fuel, as long as the
fuel is at least the length of the input list. -/
theorem replaceAllFuel_fuel_irrel (pat rep : List Char) :
    ∀ (f₁ : Nat) (s : List Char) (f₂ : Nat), s.length ≤ f₁ → s.length ≤ f₂ →
      replaceAllFuel pat rep f₁ s = replaceAllFuel pat rep f₂ s := by
  intro f₁
  induction f₁ with
  | zero =>
    intro s f₂ h1 _
    have : s = [] := List.eq_nil_of_length_eq_zero (Nat.le_zero.mp h1)
    subst this
    cases f₂ <;> rfl
  | succ n ih =>
    intro s f₂ h1 h2
    cases s with
    | nil => cases f₂ <;> rfl
    | cons c cs =>
      cases f₂ with
      | zero => exact absurd h2 (by simp)
      | succ m =>
        simp only [replaceAllFuel]
        split
        · refine congrArg (rep ++ ·) (ih _ _ ?_ ?_) <;>
            · simp only [List.length_drop]
              simp only [List.length_cons] at h1 h2
              omega
        · refine congrArg (c :: ·) (ih _ _ ?_ ?_) <;>
            · simp only [List.length_cons] at h1 h2
              omega

/-- When the scanned list begins with a (nonempty) occurrence of the pattern,
`replaceAll` replaces that occurrence and keeps scanning the remainder — it
does not stop after the first replacement. -/
theorem replaceAll_append (pat rep s : List Char) (hp : pat ≠ []) :
    replaceAll pat rep (pat ++ s) = rep ++ replaceAll pat rep s := by
  obtain ⟨p, ps, rfl⟩ : ∃ p ps, pat = p :: ps := by
    cases pat with
    | nil => exact absurd rfl hp
    | cons p ps => exact ⟨p, ps, rfl⟩
  have hpre : (p :: ps).isPrefixOf (p :: (ps ++ s)) = true := by
    rw [List.isPrefixOf_iff_prefix, ← List.cons_append]
    exact List.prefix_append _ _
  show replaceAll (p :: ps) rep (p :: (ps ++ s)) = _
  rw [replaceAll, List.length_cons, replaceAllFuel, if_pos ⟨hp, hpre⟩]
  refine congrArg (rep ++ ·) ?_
  rw [List.length_cons, Nat.add_sub_cancel, List.drop_left]
  exact replaceAllFuel_fuel_irrel _ _ _ _ _
    (by simp only [List.length_append]; omega) le_rfl

/-- At the `String` level: a key of the form `"uploads/" ++ s` is rewritten by
`output_key` to `"optimized/"` followed by the replace-all of the rest. -/
theorem output_key_append (s : String) :
    output_key (srcPre ++ s) = dstPre ++ pyReplace s srcPre dstPre := by
  have hd : (srcPre ++ s).data = srcPre.data ++ s.data := String.data_append srcPre s
  show String.mk (replaceAll srcPre.data dstPre.data (srcPre ++ s).data) = _
  rw [hd, replaceAll_append _ _ _ (by decide)]
  rfl

/-- Characterization of a successful write: a message yields a written artifact
`pc` exactly when extraction succeeds, the key passes the `uploads/` filter,
and the fetch, decode, encode and store collaborator calls all succeed; in that
case `pc` targets the extracted bucket, the replaced key, the encoded buffer
and content type `image/jpeg`. -/
theorem written_eq (env : Env) (m : SQSMessage) (pc : PutCall) :
    written env m = some pc ↔
      ∃ b k d img buf,
        extract m = .ok (b, k) ∧
        pyStartsWith k srcPre = true ∧
        env.getObject b k = .ok d ∧
        env.imageOpen d = .ok img ∧
        env.imageSave img "JPEG" 30 = .ok buf ∧
        env.putObject b (output_key k) buf "image/jpeg" = .ok () ∧
        (⟨b, output_key k, buf, "image/jpeg"⟩ : PutCall) = pc := by
  unfold written processRecord processBody
  cases hex : extract m with
  | error e => simp [hex]
  | ok bk =>
    obtain ⟨b, k⟩ := bk
    cases hsw : pyStartsWith k srcPre with
    | false => simp [hsw]
    | true =>
      cases hget : env.getObject b k with
      | error u => simp [hsw, hget]
      | ok d =>
        cases hopen : env.imageOpen d with
        | error u => simp [hsw, hget, hopen]
        | ok img =>
          cases hsave : env.imageSave img "JPEG" 30 with
          | error u => simp [hsw, hget, hopen, hsave]
          | ok buf =>
            cases hput : env.putObject b (output_key k) buf "image/jpeg" with
            | error u => simp [hsw, hget, hopen, hsave, hput]
            | ok u =>
              cases u
              simp [hsw, hget, hopen, hsave, hput, and_assoc]

/-- Full behavior of one message on the all-success path: the exact effect
trace in program order and the written artifact. -/
theorem processRecord_success (env : Env) (m : SQSMessage) (b k : String)
    (d img buf : Nat)
    (hex : extract m = .ok (b, k))
    (hsw : pyStartsWith k srcPre = true)
    (hget : env.getObject b k = .ok d)
    (hopen : env.imageOpen d = .ok img)
    (hsave : env.imageSave img "JPEG" 30 = .ok buf)
    (hput : env.putObject b (output_key k) buf "image/jpeg" = .ok ()) :
    processRecord env m =
      ([Effect.logStart k b, Effect.getObj b k, Effect.decodeImg d,
        Effect.encodeImg img "JPEG" 30,
        Effect.putObj b (output_key k) buf "image/jpeg",
        Effect.logSuccess (output_key k)],
       some ⟨b, output_key k, buf, "image/jpeg"⟩) := by
  unfold processRecord processBody
  rw [hex]
  simp [hsw, hget, hopen, hsave, hput]

/-- C3: an output artifact is written for a message iff the event is accepted
by the path filter and every stage (extract, fetch, decode, encode, store)
succeeds; failure of any stage leaves no written artifact. -/
theorem C3_written_iff_all_ok (env : Env) (m : SQSMessage) :
    (∃ pc, written env m = some pc) ↔
      ∃ b k d img buf,
        extract m = .ok (b, k) ∧
        pyStartsWith k srcPre = true ∧
        env.getObject b k = .ok d ∧
        env.imageOpen d = .ok img ∧
        env.imageSave img "JPEG" 30 = .ok buf ∧
        env.putObject b (output_key k) buf "image/jpeg" = .ok () := by
  constructor
  · rintro ⟨pc, hpc⟩
    obtain ⟨b, k, d, img, buf, h1, h2, h3, h4, h5, h6, _⟩ := (written_eq env m pc).mp hpc
    exact ⟨b, k, d, img, buf, h1, h2, h3, h4, h5, h6⟩
  · rintro ⟨b, k, d, img, buf, h1, h2, h3, h4, h5, h6⟩
    exact ⟨_, (written_eq env m _).mpr ⟨b, k, d, img, buf, h1, h2, h3, h4, h5, h6, rfl⟩⟩

/-- C9: a written artifact always targets the same bucket that the source
event named and that the object was fetched from. -/
theorem C9_same_bucket (env : Env) (m : SQSMessage) (pc : PutCall)
    (h : written env m = some pc) :
    ∃ k, extract m = .ok (pc.bucket, k)
      ∧ Effect.getObj pc.bucket k ∈ (processRecord env m).1
      ∧ Effect.putObj pc.bucket pc.key pc.body pc.contentType ∈ (processRecord env m).1 := by
  obtain ⟨b, k, d, img, buf, h1, h2, h3, h4, h5, h6, rfl⟩ := (written_eq env m pc).mp h
  refine ⟨k, h1, ?_, ?_⟩ <;>
    · rw [processRecord_success env m b k d img buf h1 h2 h3 h4 h5 h6]
      simp

/-- C1 counterexample: on the key `uploads/a/uploads/b.jpg` the code's derived
destination key is NOT `optimized/a/uploads/b.jpg` (the code computes
`optimized/a/optimized/b.jpg` instead, because Python `str.replace` replaces
every occurrence). -/
theorem C1_first_occurrence_counterexample :
    output_key "uploads/a/uploads/b.jpg" ≠ "optimized/a/uploads/b.jpg" := by
  decide

/-- C1 (amended): the destination key replaces EVERY occurrence of the source
path `uploads/` with `optimized/`: a key `uploads/ ++ s` maps to
`optimized/ ++` the replace-all of `s`, and in particular
`uploads/a/uploads/b.jpg` maps to `optimized/a/optimized/b.jpg`. -/
theorem C1_replace_all_occurrences :
    (∀ s : String, output_key (srcPre ++ s) = dstPre ++ pyReplace s srcPre dstPre)
    ∧ output_key "uploads/a/uploads/b.jpg" = "optimized/a/optimized/b.jpg" := by
  refine ⟨output_key_append, ?_⟩
  decide

/-- C2: processing is per-message isolated: in any batch, if message `i` fails,
every later message `j` is still attempted with its own (unchanged) outcome,
its effects still appear in the batch trace, and the handler still returns
normally. -/
theorem C2_batch_isolation (env : Env) (msgs : List SQSMessage) (i j : Nat)
    (hi : i < msgs.length) (hj : j < msgs.length) (hij : i < j)
    (hfail : recordFails env (msgs.get ⟨i, hi⟩) = true) :
    (∀ h2 : j < (msgs.map (processRecord env)).length,
        (msgs.map (processRecord env)).get ⟨j, h2⟩ = processRecord env (msgs.get ⟨j, hj⟩))
    ∧ List.IsInfix (processRecord env (msgs.get ⟨j, hj⟩)).1 (handlerTrace env msgs)
    ∧ lambda_handler env ⟨some msgs⟩
        = .ok (handlerTrace env msgs, ⟨200, "Batch processed"⟩) := by
  refine ⟨fun h2 => ?_, ?_, rfl⟩
  · simp [List.get_eq_getElem, List.getElem_map]
  · exact List.infix_of_mem_flatten
      (List.mem_map_of_mem _ (msgs.get_mem j hj))

/-- Witness for C2 on a concrete batch whose first message fails to parse. -/
theorem C2_batch_isolation_witness :
    (∀ h2 : 1 < (batchW.map (processRecord envW)).length,
        (batchW.map (processRecord envW)).get ⟨1, h2⟩
          = processRecord envW (batchW.get ⟨1, by decide⟩))
    ∧ List.IsInfix (processRecord envW (batchW.get ⟨1, by decide⟩)).1
        (handlerTrace envW batchW)
    ∧ lambda_handler envW ⟨some batchW⟩
        = .ok (handlerTrace envW batchW, ⟨200, "Batch processed"⟩) :=
  C2_batch_isolation envW batchW 0 1 (by decide) (by decide) (by decide) rfl

/-- C4: for every batch carrying a `Records` list (empty included, any number
of failures included) the handler returns exactly
`{statusCode: 200, body: "Batch processed"}`. -/
theorem C4_fixed_response (env : Env) (msgs : List SQSMessage) :
    lambda_handler env ⟨some msgs⟩
      = .ok (handlerTrace env msgs, ⟨200, "Batch processed"⟩) := rfl

/-- C5: a message whose key does not start with `uploads/` produces exactly one
skip diagnostic naming the key — no fetch, decode, encode or store call — and
is a normal non-error path. -/
theorem C5_skip_path (env : Env) (m : SQSMessage) (b k : String)
    (hex : extract m = .ok (b, k)) (hsw : pyStartsWith k srcPre = false) :
    processRecord env m = ([Effect.logSkip k], none)
    ∧ recordFails env m = false := by
  constructor
  · unfold processRecord processBody
    rw [hex]
    simp [hsw]
  · unfold recordFails processBody
    rw [hex]
    simp [hsw]

/-- Witness for C5 on the key `thumbnails/photo.jpg`. -/
theorem C5_skip_path_witness :
    processRecord envW (mkMsg "bkt" "thumbnails/photo.jpg")
      = ([Effect.logSkip "thumbnails/photo.jpg"], none)
    ∧ recordFails envW (mkMsg "bkt" "thumbnails/photo.jpg") = false :=
  C5_skip_path envW (mkMsg "bkt" "thumbnails/photo.jpg") "bkt" "thumbnails/photo.jpg" rfl rfl

/-- C6: when the decoded body carries several embedded S3 records, only the
first is used: extraction, the whole try-block behavior (effects and result),
and the written artifact coincide with those of the body holding just the
first record. -/
theorem C6_first_record_only (env : Env) (r : S3Entry) (rest : List S3Entry) :
    extract ⟨some ⟨some (r :: rest)⟩⟩ = extract ⟨some ⟨some [r]⟩⟩
    ∧ processBody env ⟨some ⟨some (r :: rest)⟩⟩ = processBody env ⟨some ⟨some [r]⟩⟩
    ∧ written env ⟨some ⟨some (r :: rest)⟩⟩ = written env ⟨some ⟨some [r]⟩⟩ := by
  refine ⟨rfl, rfl, ?_⟩
  unfold written processRecord
  rcases hres : processBody env ⟨some ⟨some [r]⟩⟩ with ⟨tr, res⟩
  rw [show processBody env ⟨some ⟨some (r :: rest)⟩⟩
        = processBody env ⟨some ⟨some [r]⟩⟩ from rfl, hres]
  cases res <;> rfl

/-- C7: any error raised inside the per-message try block is caught at that
boundary: the failure diagnostic carrying the raw record and the error detail
is appended to that message's trace, no artifact is recorded, and the handler
still returns its fixed response for any batch. -/
theorem C7_errors_caught (env : Env) (m : SQSMessage) (tr : List Effect) (e : PyError)
    (h : processBody env m = (tr, .error e)) :
    processRecord env m = (tr ++ [Effect.logFailure m e], none)
    ∧ ∀ msgs : List SQSMessage,
        lambda_handler env ⟨some msgs⟩
          = .ok (handlerTrace env msgs, ⟨200, "Batch processed"⟩) := by
  refine ⟨?_, fun msgs => rfl⟩
  unfold processRecord
  rw [h]

/-- Witness for C7 on a malformed message body. -/
theorem C7_errors_caught_witness :
    processRecord envW msgFail
      = ([] ++ [Effect.logFailure msgFail PyError.decodeError], none)
    ∧ ∀ msgs : List SQSMessage,
        lambda_handler envW ⟨some msgs⟩
          = .ok (handlerTrace envW msgs, ⟨200, "Batch processed"⟩) :=
  C7_errors_caught envW msgFail [] PyError.decodeError rfl

/-- C8: one message with key `uploads/photo.jpg` whose fetch, decode, encode
(JPEG at quality 30) and store succeed writes exactly the artifact
`optimized/photo.jpg` with content type `image/jpeg` and the encoded buffer as
body. -/
theorem C8_happy_scenario (env : Env) (b : String) (d img buf : Nat)
    (hget : env.getObject b "uploads/photo.jpg" = .ok d)
    (hopen : env.imageOpen d = .ok img)
    (hsave : env.imageSave img "JPEG" 30 = .ok buf)
    (hput : env.putObject b "optimized/photo.jpg" buf "image/jpeg" = .ok ()) :
    processRecord env (mkMsg b "uploads/photo.jpg")
      = ([Effect.logStart "uploads/photo.jpg" b, Effect.getObj b "uploads/photo.jpg",
          Effect.decodeImg d, Effect.encodeImg img "JPEG" 30,
          Effect.putObj b "optimized/photo.jpg" buf "image/jpeg",
          Effect.logSuccess "optimized/photo.jpg"],
         some ⟨b, "optimized/photo.jpg", buf, "image/jpeg"⟩) := by
  have hk : output_key "uploads/photo.jpg" = "optimized/photo.jpg" := by decide
  have h := processRecord_success env (mkMsg b "uploads/photo.jpg")
    b "uploads/photo.jpg" d img buf rfl rfl hget hopen hsave (by rw [hk]; exact hput)
  rw [h, hk]

/-- Witness for C8 in the all-success environment. -/
theorem C8_happy_scenario_witness :
    processRecord envOk (mkMsg "bkt" "uploads/photo.jpg")
      = ([Effect.logStart "uploads/photo.jpg" "bkt", Effect.getObj "bkt" "uploads/photo.jpg",
          Effect.decodeImg 1, Effect.encodeImg 2 "JPEG" 30,
          Effect.putObj "bkt" "optimized/photo.jpg" 3 "image/jpeg",
          Effect.logSuccess "optimized/photo.jpg"],
         some ⟨"bkt", "optimized/photo.jpg", 3, "image/jpeg"⟩) :=
  C8_happy_scenario envOk "bkt" 1 2 3 rfl rfl rfl rfl

/-- Witness for C9 on a concrete successful message. -/
theorem C9_same_bucket_witness :
    ∃ k, extract (mkMsg "bkt" "uploads/photo.jpg") = .ok (("bkt" : String), k)
      ∧ Effect.getObj "bkt" k ∈ (processRecord envOk (mkMsg "bkt" "uploads/photo.jpg")).1
      ∧ Effect.putObj "bkt" "optimized/photo.jpg" 3 "image/jpeg"
          ∈ (processRecord envOk (mkMsg "bkt" "uploads/photo.jpg")).1 :=
  C9_same_bucket envOk (mkMsg "bkt" "uploads/photo.jpg")
    ⟨"bkt", "optimized/photo.jpg", 3, "image/jpeg"⟩ rfl

/-- C10: an event without a `Records` key makes `event['Records']` raise an
uncaught `KeyError` before any message is processed: the handler errors instead
of returning the fixed acknowledgment. -/
theorem C10_missing_records_uncaught (env : Env) :
    lambda_handler env ⟨none⟩ = .error () := rfl
